import Mathlib

/-!
Shallow embedding of `medea/__init__.py` (the Deimos/Medea external
containerizer for Mesos) and proofs about its specification claims.

The Python module is embedded as pure Lean functions.  External effects
(subprocess calls, protobuf output, chmod, logging that the spec talks
about) are reified as an `Effect` trace; outcomes of external commands
(curl exits, docker stop/rm exits, the cgroup reader) are supplied as
oracle parameters, so every function stays a pure, executable `def`.

The helper modules `medea.docker`, `medea.cgroups`, `medea.err` and
`medea.logger` are not part of the source tree; where their behaviour
matters it is modelled from the spec (see the doc comments starting
"Modelled from the spec:").  Python 2 specifics that the source relies
on (truthiness of strings, `int()` truncation toward zero, `re` `$`
matching before a final newline, `base64.b16encode` uppercase hex) are
modelled explicitly below.
-/

namespace Medea

/-- Protobuf `Environment.Variable` list, as `(name, value)` pairs
(the source immediately converts to this shape at line 53). -/
abbrev Env := List (String × String)

/-- Medea's `ContainerInfo` extension carried inside `CommandInfo`:
`container.image` and `container.options`. -/
structure ContainerInfo where
  image : String
  options : List String
deriving DecidableEq

/-- One `CommandInfo.URI` entry: `value` and the `executable` flag. -/
structure UriItem where
  value : String
  executable : Bool
deriving DecidableEq

/-- Protobuf `CommandInfo`.  `value = none` models `HasField("value") = False`;
`container = none` models `HasField("container") = False`. -/
structure CommandInfo where
  value : Option String := none
  uris : List UriItem := []
  environment : Env := []
  container : Option ContainerInfo := none
deriving DecidableEq

/-- Protobuf `ExecutorInfo` (only the field the source reads). -/
structure ExecutorInfo where
  command : CommandInfo
deriving DecidableEq

/-- One `Value.Range` of a `ports` resource: inclusive `begin`/`end`
(renamed, as both are Lean keywords). -/
structure PortRange where
  rangeBegin : Nat
  rangeEnd : Nat
deriving DecidableEq

/-- Protobuf `Resource`: a name plus a scalar value and/or range list.
A missing scalar reads as protobuf default `0`; scalars are modelled as
rationals (the Python floats the source truncates with `int()`). -/
structure Resource where
  name : String
  scalar : ℚ := 0
  ranges : List PortRange := []

/-- Protobuf `TaskInfo` (the fields the source reads).  `executor = none`
models `HasField("executor") = False`. -/
structure TaskInfo where
  command : CommandInfo := {}
  executor : Option ExecutorInfo := none
  resources : List Resource := []

/-- Python 2 `int()` applied to a float/rational: truncation toward zero. -/
def pyInt (q : ℚ) : Int := q.num.tdiv q.den

/-- Worker for `pySplit`: scans the character list left to right,
splitting at each non-overlapping occurrence of `sep`.  The fuel
argument (instantiated with the list length, an upper bound on the
number of scan steps) keeps the recursion structural, so that the
function evaluates inside the kernel. -/
def pySplitAux (sep : List Char) : Nat → List Char → List Char → List (List Char)
  | _, [], acc => [acc]
  | 0, l, acc => [acc ++ l]
  | fuel + 1, c :: rest, acc =>
    if sep.isPrefixOf (c :: rest) then
      acc :: pySplitAux sep fuel ((c :: rest).drop sep.length) []
    else
      pySplitAux sep fuel rest (acc ++ [c])

/-- Python's `s.split(sep)` for a non-empty separator: the pieces of
`s` between consecutive non-overlapping occurrences of `sep`, scanned
left to right; never the empty list. -/
def pySplit (s sep : String) : List String :=
  (pySplitAux sep.toList s.toList.length s.toList []).map (fun l => ⟨l⟩)

/-- `fetch_command(task)`: the executor's command when an explicit
executor is declared, otherwise the task's own command. -/
def fetch_command (task : TaskInfo) : CommandInfo :=
  match task.executor with
  | some e => e.command
  | none => task.command

/-- `fetch_container(task)`: the governing command's container field. -/
def fetch_container (task : TaskInfo) : Option ContainerInfo :=
  (fetch_command task).container

/-- `container(task)`: image URL and options, with the
`("docker:///", [])` fallback when no container field is present. -/
def container (task : TaskInfo) : String × List String :=
  match fetch_container task with
  | some c => (c.image, c.options)
  | none => ("docker:///", [])

/-- `argv(task)`: `["sh", "-c", value]` when the governing command's
value field is present and non-empty, else `[]`. -/
def argv (task : TaskInfo) : List String :=
  match (fetch_command task).value with
  | some v => if v ≠ "" then ["sh", "-c", v] else []
  | none => []

/-- `uris(task)`. -/
def uris (task : TaskInfo) : List UriItem :=
  (fetch_command task).uris

/-- `ports(task)`: every `ports` resource's ranges, each expanded with
`range(begin, end+1)`, concatenated in declaration order. -/
def ports (task : TaskInfo) : List Nat :=
  let resources := (task.resources.filter (fun r => r.name = "ports")).map
    (fun r => r.ranges)
  let ranges := resources.flatten
  let portsLists := ranges.map
    (fun r => List.range' r.rangeBegin (r.rangeEnd + 1 - r.rangeBegin))
  portsLists.flatten

/-- `cpu_and_mem(task)`: a left fold over the resources starting from
`(None, None)`; a `cpus` resource sets the cpu slot to
`str(int(value * 1024))` and a `mem` resource sets the mem slot to
`str(int(value)) + "m"` (the last matching resource wins). -/
def cpu_and_mem (task : TaskInfo) : Option String × Option String :=
  task.resources.foldl
    (fun acc r =>
      let acc1 := if r.name = "cpus"
        then (some (toString (pyInt (r.scalar * 1024))), acc.2) else acc
      if r.name = "mem"
        then (acc1.1, some (toString (pyInt r.scalar) ++ "m")) else acc1)
    (none, none)

/-- `needs_executor_wrapper(task)`: true iff no explicit executor. -/
def needs_executor_wrapper (task : TaskInfo) : Bool :=
  task.executor = none

/-- A character of the restricted charset `[a-zA-Z0-9.-]`.
`Char.isAlpha`/`Char.isDigit` are exactly the ASCII ranges. -/
def isSafeChar (c : Char) : Bool :=
  c.isAlpha || c.isDigit || c = '.' || c = '-'

/-- Python's `re.match(r"^[a-zA-Z0-9.-]+$", s)` as a Boolean: in Python
`$` also matches just before one trailing newline, so a single final
`'\n'` is dropped before requiring a non-empty all-safe string. -/
def pyMatchSafe (s : String) : Bool :=
  let l := s.toList
  let t := if l.getLast? = some '\n' then l.dropLast else l
  !t.isEmpty && t.all isSafeChar

/-- Uppercase hex digit for `n < 16`. -/
def hexUpper (n : Nat) : Char :=
  "0123456789ABCDEF".toList.getD n '0'

/-- `base64.b16encode`: each byte becomes two uppercase hex digits.
Python 2 `str` is a byte string, so this model is faithful for strings
of characters below 256. -/
def b16encode (s : String) : String :=
  ⟨s.toList.flatMap (fun c => [hexUpper (c.toNat / 16 % 16), hexUpper (c.toNat % 16)])⟩

/-- `container_id_as_docker_name(container_id)`: verbatim with prefix
`"mesos."` when the id matches the restricted pattern, otherwise the
prefix followed by the base-16 encoding (the encoding is also logged,
an effect not modelled here). -/
def container_id_as_docker_name (container_id : String) : String :=
  if pyMatchSafe container_id then "mesos." ++ container_id
  else "mesos." ++ b16encode container_id

/-- `MESOS_ESSENTIAL_ENV`. -/
def MESOS_ESSENTIAL_ENV : List String :=
  ["MESOS_SLAVE_ID", "MESOS_SLAVE_PID", "MESOS_FRAMEWORK_ID", "MESOS_EXECUTOR_ID"]

/-- `mesos_env()`: each essential key paired with its value from the
process environment, kept only when the value is truthy (present and
non-empty — Python's `if env(k)`). -/
def mesos_env (osEnv : String → Option String) : Env :=
  MESOS_ESSENTIAL_ENV.filterMap
    (fun k => match osEnv k with
      | some v => if v ≠ "" then some (k, v) else none
      | none => none)

/-- `in_sh(argv, allstderr, echo)`: the `/bin/sh -c 'exec "$@"' sh`
wrapper the source puts around every subprocess call. -/
def in_sh (argvL : List String) (allstderr : Bool := true) (echo : Bool := false) :
    List String :=
  let call := (if echo then "echo ARGV // \"$@\" >&2 && " else "")
    ++ "exec \"$@\"" ++ (if allstderr then " >&2" else "")
  ["/bin/sh", "-c", call, "sh"] ++ argvL

/-- Modelled from the spec: the runtime driver's
`run(options, image, argv, env, ports, cpuLimit, memLimit) → invocation`
(the `medea.docker` module is not in the source tree).  The driver's
arguments, together with the executor-bridge wrapper prefixed to the
invocation by `launch`, are recorded structurally. -/
structure RunInvocation where
  wrapper : List String
  options : List String
  image : String
  argvL : List String
  env : Env
  portsL : List Nat
  cpus : Option String
  mems : Option String
deriving DecidableEq

/-- The externally visible effects the claims talk about, in program
order.  `log.info` calls other than the basename warning are elided. -/
inductive Effect where
  /-- `subprocess.check_call` of an argv (mkdir, ln, rm). -/
  | checkCall (argvL : List String)
  /-- `log.info` for a URI whose basename cannot be determined. -/
  | logSkippedUri (uri : String)
  /-- The `curl` fetch of a URI to a destination file, with its exit code. -/
  | fetch (uri : String) (dest : String) (exitCode : Int)
  /-- `log.warning` / `log.error` with the given message. -/
  | logWarn (msg : String)
  /-- `os.chmod(path, mode)`. -/
  | chmod (path : String) (mode : Nat)
  /-- `medea.docker.await(name)`: bounded wait for the container. -/
  | await (name : String)
  /-- `subprocess.Popen` of the runtime invocation (the container child). -/
  | spawn (inv : RunInvocation)
  /-- `proto_out(cls, ...)` serialized to stdout: class name and message. -/
  | protoOut (cls : String) (msg : String)
deriving DecidableEq

/-- The error raised by `raise Err(msg)` (module `medea.err`, not in the
source tree; the spec calls these fatal configuration errors), or a
Python `ValueError` from unpacking a `split` of the wrong length. -/
inductive PyErr where
  | err (msg : String)
  | valueError
deriving DecidableEq

/-- `os.path.join(directory, basename)` for a relative, slash-free
basename, as produced in `place_uris`. -/
def pathJoin (dir basename : String) : String :=
  dir ++ "/" ++ basename

/-- `uri.split("/")[-1]`: Python `split` never returns an empty list, so
the `[-1]` never raises; the explicit `raise IndexError` on an empty
basename is what the `except IndexError` catches. -/
def basenameOf (uri : String) : String :=
  (pySplit uri "/").getLastD ""

/-- One iteration of the `place_uris` loop: either a logged skip (empty
basename), a failed fetch logged with two warnings and skipped, or a
successful fetch followed by `chmod 0755` when the item is marked
executable. -/
def place_uri_item (fetchExit : String → Int) (directory : String)
    (item : UriItem) : List Effect :=
  let uri := item.value
  let basename := basenameOf uri
  let f := pathJoin directory basename
  if basename = "" then [Effect.logSkippedUri uri]
  else
    let curlArgv := in_sh ["curl", "-sSfL", uri, "--output", f] true true
    let code := fetchExit uri
    if code ≠ 0 then
      [Effect.fetch uri f code,
       Effect.logWarn ("Non-zero exit: " ++ " ".intercalate curlArgv),
       Effect.logWarn ("Failed while processing URI: " ++ uri)]
    else
      Effect.fetch uri f 0 ::
      (if item.executable then [Effect.chmod f 0o755] else [])

/-- `place_uris(task, directory)` with the curl exit codes supplied by
the `fetchExit` oracle: `mkdir -p`, then the loop over the URIs. -/
def place_uris (fetchExit : String → Int) (task : TaskInfo) (directory : String) :
    List Effect :=
  Effect.checkCall ["mkdir", "-p", directory] ::
  (uris task).flatMap (place_uri_item fetchExit directory)

/-- Everything `launch` consumes from the outside world: the identity
and CLI arguments, the decoded task, the process environment, the
current working directory, the host-default image
(`matching_docker_for_host`, an external collaborator), the curl exit
codes, and the exit code the spawned runner eventually returns. -/
structure LaunchInput where
  container_id : String
  args : List String
  task : TaskInfo
  osEnv : String → Option String
  cwd : String
  hostImage : String
  fetchExit : String → Int
  runnerExit : Int

/-- The executor-wrapper decision of `launch` (lines 60–66): when the
task needs the wrapper, `--mesos-executor <path>` must head the CLI
arguments and the path becomes the invocation prefix, with the
environment left unchanged; otherwise the environment gains
`mesos_env()` plus `MESOS_DIRECTORY` bound to the sandbox mountpoint,
and nothing is prefixed. -/
def launch_branch (task : TaskInfo) (args : List String)
    (osEnv : String → Option String) (sandbox_mountpoint : String) (env : Env) :
    Except PyErr (List String × Env) :=
  if needs_executor_wrapper task then
    if args.length > 1 ∧ args.head? = some "--mesos-executor" then
      .ok ([args.getD 1 ""], env)
    else
      .error (.err "This task needs --mesos-executor to be set!")
  else
    .ok ([], env ++ mesos_env osEnv ++ [("MESOS_DIRECTORY", sandbox_mountpoint)])

/-- `launch(container_id, *args)`: returns the effect trace and either
the raised error or the runner's exit code.  Faithful to the source's
order: URL validation, URI placement, sandbox soft-link creation,
the wrapper decision, then spawn / link removal / acknowledgement. -/
def launch (inp : LaunchInput) : List Effect × Except PyErr Int :=
  let url := (container inp.task).1
  let options := (container inp.task).2
  match pySplit url "docker:///" with
  | [pre, image0] =>
    if pre ≠ "" then
      ([], .error (.err ("URL '" ++ url ++ "' is not a valid docker:// URL!")))
    else
      let image := if image0 = "" then inp.hostImage else image0
      let docker_name := container_id_as_docker_name inp.container_id
      let uriEffects := place_uris inp.fetchExit inp.task "fs"
      let sandbox_mountpoint := "/tmp/mesos-sandbox/"
      let sandbox_softlink := "/tmp/medes-fs." ++ docker_name
      let linkEffect :=
        Effect.checkCall ["ln", "-s", inp.cwd ++ "/fs", sandbox_softlink]
      let run_options :=
        ["--name", docker_name, "-w", sandbox_mountpoint,
         "-v", sandbox_softlink ++ ":" ++ sandbox_mountpoint] ++ options
      let cpus := (cpu_and_mem inp.task).1
      let mems := (cpu_and_mem inp.task).2
      let env := inp.task.command.environment
      match launch_branch inp.task inp.args inp.osEnv sandbox_mountpoint env with
      | .error e => (uriEffects ++ [linkEffect], .error e)
      | .ok (wrapper, envFinal) =>
        let inv : RunInvocation :=
          { wrapper := wrapper, options := run_options, image := image,
            argvL := argv inp.task, env := envFinal, portsL := ports inp.task,
            cpus := cpus, mems := mems }
        -- spawn, 100ms sleep, link removal (the `finally`), then the
        -- launch acknowledgement, stdout close, and wait for the child
        (uriEffects ++
          [linkEffect, Effect.spawn inv,
           Effect.checkCall ["rm", "-f", sandbox_softlink],
           Effect.protoOut "PluggableStatus" "launch/docker: ok"],
         .ok inp.runnerExit)
  | _ => ([], .error .valueError)

/-- Modelled from the spec: the runtime driver's `stop(name) → result`
(the `medea.docker` module is not in the source tree). -/
def docker_stop (name : String) : List String :=
  ["docker", "stop", name]

/-- Modelled from the spec: the runtime driver's `rm(name) → result`
(the `medea.docker` module is not in the source tree). -/
def docker_rm (name : String) : List String :=
  ["docker", "rm", name]

/-- `destroy(container_id, *args)` with the exit code of each issued
command supplied by the `execExit` oracle: resolve the runtime name,
wait for existence, run stop then rm through `in_sh`; the first
non-zero exit is logged and returned (the source catches the
`CalledProcessError` instead of letting it propagate); on full success
emit the acknowledgement and return 0. -/
def destroy (execExit : List String → Int) (container_id : String) :
    List Effect × Int :=
  let name := container_id_as_docker_name container_id
  let stopArgv := in_sh (docker_stop name)
  let rmArgv := in_sh (docker_rm name)
  let stopCode := execExit stopArgv
  if stopCode ≠ 0 then
    ([Effect.await name, Effect.checkCall stopArgv,
      Effect.logWarn ("Non-zero exit: " ++ " ".intercalate stopArgv)], stopCode)
  else
    let rmCode := execExit rmArgv
    if rmCode ≠ 0 then
      ([Effect.await name, Effect.checkCall stopArgv, Effect.checkCall rmArgv,
        Effect.logWarn ("Non-zero exit: " ++ " ".intercalate rmArgv)], rmCode)
    else
      ([Effect.await name, Effect.checkCall stopArgv, Effect.checkCall rmArgv,
        Effect.protoOut "PluggableStatus" "destroy/docker: ok"], 0)

/-- The usage snapshot `usage` emits: the five accessor reads of the
container's accounting group (`cg.memory.limit()` etc.). -/
structure CGroupStats where
  memLimitBytes : Nat
  cpusLimit : ℚ
  cpusUserTimeSecs : ℚ
  cpusSystemTimeSecs : ℚ
  memRssBytes : Nat

/-- `usage(container_id, *args)` with the accounting reader supplied as
an oracle.  Modelled from the spec: the `medea.cgroups` accessor module
is not in the source tree; a missing or incomplete accounting group
makes an accessor raise `AttributeError`, modelled as `none`.  The
source catches that, logs a warning and returns 1; otherwise it emits
the statistics message and returns 0. -/
def usage (readAcct : String → Option CGroupStats) (container_id : String) :
    List Effect × Int :=
  let name := container_id_as_docker_name container_id
  match readAcct name with
  | none =>
    ([Effect.await name, Effect.logWarn "Missing CGroup!"], 1)
  | some _ =>
    ([Effect.await name, Effect.protoOut "ResourceStatistics" ""], 0)

/-! ### Trace observations used in the claim statements -/

/-- The invocation carried by a `spawn` effect, if any. -/
def toSpawnOpt : Effect → Option RunInvocation
  | .spawn inv => some inv
  | _ => none

/-- The runtime invocations spawned along a trace, in order. -/
def spawnList (effs : List Effect) : List RunInvocation :=
  effs.filterMap toSpawnOpt

/-- Replace the curl-exit oracle of a launch input, leaving the rest
of the outside world unchanged. -/
def withFetch (inp : LaunchInput) (f : String → Int) : LaunchInput :=
  { inp with fetchExit := f }

/-! ### Concrete inputs used by counterexamples and witnesses -/

/-- A parent process environment carrying all four scheduler-identity
keys. -/
def osEnvFull : String → Option String := fun k =>
  if k = "MESOS_SLAVE_ID" then some "slave-1"
  else if k = "MESOS_SLAVE_PID" then some "slave(1)@10.0.0.1:5051"
  else if k = "MESOS_FRAMEWORK_ID" then some "fw-1"
  else if k = "MESOS_EXECUTOR_ID" then some "exec-1"
  else none

/-- A task with no explicit executor and a plain command line. -/
def taskNoExec : TaskInfo :=
  { command := { value := some "echo hi", environment := [("FOO", "bar")] } }

/-- A task that declares an explicit executor. -/
def taskWithExec : TaskInfo :=
  { command := { environment := [("BAR", "baz")] },
    executor := some { command := { value := some "run-executor" } } }

/-- Launch of `taskNoExec` with the bridge executable supplied. -/
def inpC2 : LaunchInput :=
  { container_id := "c2",
    args := ["--mesos-executor", "/usr/libexec/mesos-executor"],
    task := taskNoExec, osEnv := osEnvFull, cwd := "/work",
    hostImage := "ubuntu:14.04", fetchExit := fun _ => 0, runnerExit := 0 }

/-- Launch of `taskNoExec` with no CLI arguments at all. -/
def inpC3 : LaunchInput :=
  { container_id := "c3", args := [], task := taskNoExec, osEnv := osEnvFull,
    cwd := "/work", hostImage := "ubuntu:14.04", fetchExit := fun _ => 0,
    runnerExit := 0 }

/-- Launch of `taskWithExec` with no CLI arguments at all. -/
def inpC4 : LaunchInput :=
  { container_id := "c4", args := [], task := taskWithExec, osEnv := osEnvFull,
    cwd := "/work", hostImage := "ubuntu:14.04", fetchExit := fun _ => 0,
    runnerExit := 0 }

/-- A task declaring one `ports` resource with the given ranges. -/
def mkPortsTask (rs : List PortRange) : TaskInfo :=
  { resources := [{ name := "ports", ranges := rs }] }

/-- A task declaring a `cpus` scalar `c` and a `mem` scalar `m`. -/
def mkResTask (c m : ℚ) : TaskInfo :=
  { resources := [{ name := "cpus", scalar := c }, { name := "mem", scalar := m }] }

/-- Three declared URIs: two plain artifacts and one executable. -/
def uriA : UriItem := ⟨"http://archive.example.com/a.tgz", false⟩

def uriB : UriItem := ⟨"http://archive.example.com/b.tgz", false⟩

def uriC : UriItem := ⟨"http://archive.example.com/run.sh", true⟩

/-- A task with no explicit executor and three declared URIs. -/
def task3 : TaskInfo :=
  { command := { value := some "echo hi", uris := [uriA, uriB, uriC] } }

/-- A curl oracle under which exactly the second URI fails (exit 7). -/
def fetchFailB : String → Int := fun u => if u = uriB.value then 7 else 0

/-- Launch of `task3` with the bridge executable supplied. -/
def inpC7 : LaunchInput :=
  { container_id := "c7",
    args := ["--mesos-executor", "/usr/libexec/mesos-executor"],
    task := task3, osEnv := osEnvFull, cwd := "/work",
    hostImage := "ubuntu:14.04", fetchExit := fun _ => 0, runnerExit := 0 }

/-- A runtime where the container is already gone: `docker stop` of the
resolved name exits 1 (the runtime's "not found" code) and everything
else succeeds — the state a second `destroy` of the same identity
observes. -/
def execNotFound : List String → Int := fun a =>
  if a = in_sh (docker_stop "mesos.gone") then 1 else 0

/-- An accounting reader with no accounting group for any container. -/
def readNone : String → Option CGroupStats := fun _ => none

deriving instance DecidableEq for Except

/-! ### Helper lemmas -/

theorem spawnList_append (a b : List Effect) :
    spawnList (a ++ b) = spawnList a ++ spawnList b :=
  List.filterMap_append a b toSpawnOpt

theorem toSpawnOpt_place_uri_item (f : String → Int) (d : String)
    (item : UriItem) : ∀ e ∈ place_uri_item f d item, toSpawnOpt e = none := by
  intro e he
  simp only [place_uri_item] at he
  split at he
  · simp only [List.mem_singleton] at he
    subst he; rfl
  · split at he
    · simp only [List.mem_cons, List.mem_singleton, List.not_mem_nil, or_false] at he
      rcases he with h | h | h <;> (subst h; rfl)
    · rcases List.mem_cons.mp he with h | h
      · subst h; rfl
      · split at h
        · simp only [List.mem_singleton] at h
          subst h; rfl
        · simp at h

theorem toSpawnOpt_place_uris (f : String → Int) (t : TaskInfo) (d : String) :
    ∀ e ∈ place_uris f t d, toSpawnOpt e = none := by
  intro e he
  rcases List.mem_cons.mp he with h | h
  · subst h; rfl
  · rcases List.mem_flatMap.mp h with ⟨item, _, hmem⟩
    exact toSpawnOpt_place_uri_item f d item e hmem

theorem spawnList_place_uris (f : String → Int) (t : TaskInfo) (d : String) :
    spawnList (place_uris f t d) = [] := by
  simp only [spawnList]
  rw [List.filterMap_eq_nil_iff]
  exact toSpawnOpt_place_uris f t d

/-- The outcome of `launch` (its returned result and the invocations it
spawns) does not depend on the curl-exit oracle: URI fetch outcomes
influence only the fetch-related effects. -/
theorem launch_fetch_independent (inp : LaunchInput) (f : String → Int) :
    (launch (withFetch inp f)).2 = (launch inp).2 ∧
    spawnList (launch (withFetch inp f)).1 = spawnList (launch inp).1 := by
  rcases h : pySplit (container inp.task).1 "docker:///" with _ | ⟨pre, _ | ⟨im, _ | ⟨x, l⟩⟩⟩
  all_goals (simp only [launch, withFetch]; rw [h])
  · simp [spawnList]
  · simp [spawnList]
  · by_cases hpre : pre = ""
    · subst hpre
      simp only [ne_eq, not_true_eq_false, if_false, ite_false]
      have h1 := spawnList_place_uris f inp.task "fs"
      have h2 := spawnList_place_uris inp.fetchExit inp.task "fs"
      simp only [spawnList] at h1 h2
      cases hb : launch_branch inp.task inp.args inp.osEnv "/tmp/mesos-sandbox/"
          inp.task.command.environment with
      | error e =>
        simp [hb, spawnList, toSpawnOpt, h1, h2]
      | ok pr =>
        simp [hb, spawnList, toSpawnOpt, h1, h2]
    · simp [hpre, spawnList]
  · simp [spawnList]

/-! ### Claim C1 — container identity to Docker name -/

/-- C1, counterexample: the two naming classes collide.  The identity
`"2F"` matches the restricted pattern and is used verbatim, while the
identity `"/"` does not match and is base-16 encoded — and both derive
the very same Docker name `"mesos.2F"`. -/
theorem C1_counterexample :
    pyMatchSafe "2F" = true ∧ pyMatchSafe "/" = false ∧
    container_id_as_docker_name "2F" = "mesos.2F" ∧
    container_id_as_docker_name "/" = "mesos.2F" := by decide

/-- C1 (amended): the mapping from container identity to Docker name is
a pure function: an identity matching the restricted pattern derives
the identity verbatim behind the fixed prefix `"mesos."`, any other
identity derives the prefix followed by its deterministic base-16
encoding, and the mapping is injective on the pattern-matching class —
though a pattern-matching identity may collide with the encoding of a
non-matching one. -/
theorem C1_name_mapping (s t u : String)
    (hs : pyMatchSafe s = true) (ht : pyMatchSafe t = true)
    (hu : pyMatchSafe u = false) :
    container_id_as_docker_name s = "mesos." ++ s ∧
    container_id_as_docker_name u = "mesos." ++ b16encode u ∧
    (container_id_as_docker_name s = container_id_as_docker_name t ↔ s = t) := by
  refine ⟨by simp [container_id_as_docker_name, hs],
          by simp [container_id_as_docker_name, hu], ?_⟩
  simp only [container_id_as_docker_name, hs, ht, if_true]
  constructor
  · intro h
    have hd := congrArg String.data h
    simp only [String.data_append] at hd
    exact String.ext (List.append_cancel_left hd)
  · intro h
    rw [h]

/-- C1, witness: the mapping theorem applied to the safe identities
`"node-1.prod"` and `"2F"` and the unsafe identity `"/"`. -/
theorem C1_name_mapping_witness :
    container_id_as_docker_name "node-1.prod" = "mesos." ++ "node-1.prod" ∧
    container_id_as_docker_name "/" = "mesos." ++ b16encode "/" ∧
    (container_id_as_docker_name "node-1.prod" = container_id_as_docker_name "2F" ↔
      "node-1.prod" = "2F") :=
  C1_name_mapping "node-1.prod" "2F" "/" (by decide) (by decide) (by decide)

/-! ### Claim C2 — bridge wrapping and its environment -/

/-- C2, counterexample: for a task with no explicit executor, launched
with the bridge supplied and all four scheduler-identity keys present
in the parent environment, the spawned invocation is bridge-wrapped but
its environment is only the task's own `[("FOO", "bar")]` — neither
`MESOS_DIRECTORY` nor any scheduler-identity key is passed to it. -/
theorem C2_counterexample :
    needs_executor_wrapper inpC2.task = true ∧
    osEnvFull "MESOS_SLAVE_ID" = some "slave-1" ∧
    spawnList (launch inpC2).1 =
      [{ wrapper := ["/usr/libexec/mesos-executor"],
         options := ["--name", "mesos.c2", "-w", "/tmp/mesos-sandbox/",
                     "-v", "/tmp/medes-fs.mesos.c2:/tmp/mesos-sandbox/"],
         image := "ubuntu:14.04", argvL := ["sh", "-c", "echo hi"],
         env := [("FOO", "bar")], portsL := [], cpus := none, mems := none }] ∧
    ("MESOS_DIRECTORY", "/tmp/mesos-sandbox/") ∉
      ((spawnList (launch inpC2).1).map RunInvocation.env).flatten ∧
    ("MESOS_SLAVE_ID", "slave-1") ∉
      ((spawnList (launch inpC2).1).map RunInvocation.env).flatten := by decide

/-- C2 (amended): for every task descriptor with no explicit executor
(and a well-formed image URL), `launch` wraps the runtime invocation in
the bridge executable given by `--mesos-executor`, and the environment
passed to that wrapped invocation is the task's declared environment
unchanged — the four scheduler-identity keys and the `MESOS_DIRECTORY`
variable are not added in this case (they are added only in the
explicit-executor case). -/
theorem C2_bridge_wrapping (inp : LaunchInput) (path : String)
    (rest : List String) (img : String)
    (hw : needs_executor_wrapper inp.task = true)
    (hargs : inp.args = "--mesos-executor" :: path :: rest)
    (hurl : pySplit (container inp.task).1 "docker:///" = ["", img]) :
    (launch inp).2 = Except.ok inp.runnerExit ∧
    (spawnList (launch inp).1).map (fun i => (i.wrapper, i.env)) =
      [([path], inp.task.command.environment)] := by
  simp only [launch]
  rw [hurl]
  simp only [launch_branch, hw, if_true, hargs]
  simp [spawnList, toSpawnOpt]
  exact fun a ha => toSpawnOpt_place_uris _ _ _ a ha

/-- C2, witness: the wrapping theorem applied to the concrete launch
input `inpC2`. -/
theorem C2_bridge_wrapping_witness :
    (launch inpC2).2 = Except.ok inpC2.runnerExit ∧
    (spawnList (launch inpC2).1).map (fun i => (i.wrapper, i.env)) =
      [(["/usr/libexec/mesos-executor"], inpC2.task.command.environment)] :=
  C2_bridge_wrapping inpC2 "/usr/libexec/mesos-executor" [] ""
    (by decide) (by decide) (by decide)

/-! ### Claim C3 — missing bridge argument fails the launch -/

/-- C3: for every task descriptor with no explicit executor, if the
CLI arguments do not begin with `--mesos-executor <path>`, `launch`
raises an error and no container child process is ever spawned. -/
theorem C3_missing_bridge_fails (inp : LaunchInput)
    (hw : needs_executor_wrapper inp.task = true)
    (hargs : ¬(inp.args.length > 1 ∧ inp.args.head? = some "--mesos-executor")) :
    (∃ e, (launch inp).2 = Except.error e) ∧ spawnList (launch inp).1 = [] := by
  rcases h : pySplit (container inp.task).1 "docker:///" with _ | ⟨pre, _ | ⟨im, _ | ⟨x, l⟩⟩⟩
  · simp [launch, h, spawnList]
  · simp [launch, h, spawnList]
  · simp only [launch]
    rw [h]
    by_cases hpre : pre = ""
    · subst hpre
      simp only [launch_branch, hw, if_true, if_neg hargs]
      simp only [ne_eq, not_true_eq_false, if_false, ite_false]
      constructor
      · exact ⟨_, rfl⟩
      · simp [spawnList, toSpawnOpt]
        exact fun a ha => toSpawnOpt_place_uris _ _ _ a ha
    · simp [hpre, spawnList]
  · simp [launch, h, spawnList]

/-- C3, witness: the failure theorem applied to the concrete launch
input `inpC3` (no executor in the task, empty argument list). -/
theorem C3_missing_bridge_fails_witness :
    (∃ e, (launch inpC3).2 = Except.error e) ∧ spawnList (launch inpC3).1 = [] :=
  C3_missing_bridge_fails inpC3 (by decide) (by decide)

/-! ### Claim C4 — explicit executor: no wrapping, no bridge required -/

/-- C4, counterexample: a task that declares an explicit executor,
launched with no CLI arguments at all (no bridge-executable path),
does not fail — `launch` succeeds, spawns an unwrapped invocation, and
extends its environment with the scheduler-identity keys and
`MESOS_DIRECTORY`; no `MissingExecutorBridge`-style error occurs. -/
theorem C4_counterexample :
    needs_executor_wrapper inpC4.task = false ∧
    inpC4.args = [] ∧
    (launch inpC4).2 = Except.ok 0 ∧
    (spawnList (launch inpC4).1).map (fun i => (i.wrapper, i.env)) =
      [([], [("BAR", "baz"), ("MESOS_SLAVE_ID", "slave-1"),
             ("MESOS_SLAVE_PID", "slave(1)@10.0.0.1:5051"),
             ("MESOS_FRAMEWORK_ID", "fw-1"), ("MESOS_EXECUTOR_ID", "exec-1"),
             ("MESOS_DIRECTORY", "/tmp/mesos-sandbox/")])] := by decide

/-- C4 (amended): for every task descriptor that declares an explicit
executor (and a well-formed image URL), no bridge wrapping occurs and
no bridge-executable argument is required: `launch` proceeds for any
CLI arguments, and the invocation's environment is the task's declared
environment extended with the scheduler-identity keys forwarded from
the parent environment plus `MESOS_DIRECTORY` bound to the
container-visible sandbox path.  The bridge-argument requirement
applies instead to descriptors with no explicit executor. -/
theorem C4_executor_no_wrapper (inp : LaunchInput) (img : String)
    (hw : needs_executor_wrapper inp.task = false)
    (hurl : pySplit (container inp.task).1 "docker:///" = ["", img]) :
    (launch inp).2 = Except.ok inp.runnerExit ∧
    (spawnList (launch inp).1).map (fun i => (i.wrapper, i.env)) =
      [([], inp.task.command.environment ++ mesos_env inp.osEnv ++
            [("MESOS_DIRECTORY", "/tmp/mesos-sandbox/")])] := by
  simp only [launch]
  rw [hurl]
  simp only [launch_branch, hw, if_false, Bool.false_eq_true]
  simp [spawnList, toSpawnOpt]
  exact fun a ha => toSpawnOpt_place_uris _ _ _ a ha

/-- C4, witness: the no-wrapping theorem applied to the concrete
launch input `inpC4`. -/
theorem C4_executor_no_wrapper_witness :
    (launch inpC4).2 = Except.ok inpC4.runnerExit ∧
    (spawnList (launch inpC4).1).map (fun i => (i.wrapper, i.env)) =
      [([], inpC4.task.command.environment ++ mesos_env inpC4.osEnv ++
            [("MESOS_DIRECTORY", "/tmp/mesos-sandbox/")])] :=
  C4_executor_no_wrapper inpC4 "" (by decide) (by decide)

/-! ### Claim C5 — port range expansion -/

/-- C5, counterexample: two overlapping declared ranges [1,3] and [2,4]
expand to `[1, 2, 3, 2, 3, 4]` — duplicates are kept and the combined
list is not ascending, so expansion is not de-duplicated across
overlapping ranges. -/
theorem C5_counterexample :
    ports (mkPortsTask [⟨1, 3⟩, ⟨2, 4⟩]) = [1, 2, 3, 2, 3, 4] ∧
    ¬ (ports (mkPortsTask [⟨1, 3⟩, ⟨2, 4⟩])).Nodup ∧
    ¬ List.Sorted (· ≤ ·) (ports (mkPortsTask [⟨1, 3⟩, ⟨2, 4⟩])) := by decide

/-- C5 (amended): declared port ranges are expanded into the
concatenation, in declaration order, of each range's ascending
inclusive expansion — without de-duplication across overlapping
ranges.  A single declared range expands to the ascending,
duplicate-free list of its members; in particular [30000,30002]
expands to exactly [30000, 30001, 30002]. -/
theorem C5_ports_expansion (b e : Nat) :
    ports (mkPortsTask [⟨b, e⟩]) = List.range' b (e + 1 - b) ∧
    List.Sorted (· < ·) (ports (mkPortsTask [⟨b, e⟩])) ∧
    (ports (mkPortsTask [⟨b, e⟩])).Nodup ∧
    ports (mkPortsTask [⟨30000, 30002⟩]) = [30000, 30001, 30002] := by
  have h1 : ports (mkPortsTask [⟨b, e⟩]) = List.range' b (e + 1 - b) := by
    simp [ports, mkPortsTask]
  refine ⟨h1, ?_, ?_, by decide⟩
  · rw [h1]
    simpa [List.Sorted] using List.pairwise_lt_range' b (e + 1 - b)
  · rw [h1]
    exact List.nodup_range' ..

/-! ### Claim C6 — CPU and memory scalar conversion -/

/-- C6: the declared CPU scalar converts to a CPU-share string by
multiplying by 1024 and truncating to an integer, and the declared
memory scalar converts by truncating to an integer and suffixing
`"m"`; in particular CPU scalar 0.5 yields `"512"` and memory scalar
512 yields `"512m"`. -/
theorem C6_cpu_mem_conversion (c m : ℚ) :
    cpu_and_mem (mkResTask c m) =
      (some (toString (pyInt (c * 1024))), some (toString (pyInt m) ++ "m")) ∧
    cpu_and_mem (mkResTask (1/2) 512) = (some "512", some "512m") := by
  have key : ∀ c₀ m₀ : ℚ, cpu_and_mem (mkResTask c₀ m₀) =
      (some (toString (pyInt (c₀ * 1024))), some (toString (pyInt m₀) ++ "m")) := by
    intro c₀ m₀
    simp [cpu_and_mem, mkResTask]
  refine ⟨key c m, ?_⟩
  rw [key]
  have hc : ((1 : ℚ) / 2 * 1024) = 512 := by norm_num
  rw [hc]
  have h512 : pyInt 512 = 512 := by
    simp [pyInt]
  rw [h512]
  decide

/-! ### Claim C7 — URI fetch failures never abort the launch -/

/-- C7: for every declared URI list, a URI whose fetch exits non-zero
is logged and skipped; every other URI is still processed — a fetch
that succeeds places its file and, when the item is marked executable,
is followed by `chmod 0755`; a URI with no derivable basename is
skipped with a logged message; and the launch outcome (returned result
and spawned invocation) does not depend on the fetch exit codes at
all, so `launch` proceeds to the runtime invocation regardless of
fetch failures. -/
theorem C7_fetch_failures_skipped (fetchExit : String → Int) (task : TaskInfo)
    (directory : String) (item : UriItem) (inp : LaunchInput) (f : String → Int)
    (hmem : item ∈ uris task) :
    (basenameOf item.value ≠ "" → fetchExit item.value ≠ 0 →
      Effect.logWarn ("Failed while processing URI: " ++ item.value) ∈
        place_uris fetchExit task directory ∧
      Effect.fetch item.value (pathJoin directory (basenameOf item.value))
          (fetchExit item.value) ∈ place_uris fetchExit task directory) ∧
    (basenameOf item.value ≠ "" → fetchExit item.value = 0 →
      Effect.fetch item.value (pathJoin directory (basenameOf item.value)) 0 ∈
        place_uris fetchExit task directory ∧
      (item.executable = true →
        Effect.chmod (pathJoin directory (basenameOf item.value)) 0o755 ∈
          place_uris fetchExit task directory)) ∧
    (basenameOf item.value = "" →
      Effect.logSkippedUri item.value ∈ place_uris fetchExit task directory) ∧
    ((launch (withFetch inp f)).2 = (launch inp).2 ∧
     spawnList (launch (withFetch inp f)).1 = spawnList (launch inp).1) := by
  have hsub : ∀ x ∈ place_uri_item fetchExit directory item,
      x ∈ place_uris fetchExit task directory := by
    intro x hx
    exact List.mem_cons_of_mem _ (List.mem_flatMap.mpr ⟨item, hmem, hx⟩)
  refine ⟨fun hb hf => ⟨?_, ?_⟩, fun hb hf => ⟨?_, fun hex => ?_⟩, fun hb => ?_,
    launch_fetch_independent inp f⟩
  · exact hsub _ (by simp [place_uri_item, hb, hf])
  · exact hsub _ (by simp [place_uri_item, hb, hf])
  · exact hsub _ (by simp [place_uri_item, hb, hf])
  · exact hsub _ (by simp [place_uri_item, hb, hf, hex])
  · exact hsub _ (by simp [place_uri_item, hb])

/-- C7, witness: among the three URIs of `task3`, under the oracle
where exactly the second fetch fails, the failure is logged, the first
URI is still placed, the third is placed and made executable, and the
launch outcome equals the all-success one. -/
theorem C7_fetch_failures_skipped_witness :
    Effect.logWarn ("Failed while processing URI: " ++ uriB.value) ∈
      place_uris fetchFailB task3 "fs" ∧
    Effect.fetch uriA.value (pathJoin "fs" (basenameOf uriA.value)) 0 ∈
      place_uris fetchFailB task3 "fs" ∧
    Effect.chmod (pathJoin "fs" (basenameOf uriC.value)) 0o755 ∈
      place_uris fetchFailB task3 "fs" ∧
    (launch (withFetch inpC7 fetchFailB)).2 = (launch inpC7).2 ∧
    spawnList (launch (withFetch inpC7 fetchFailB)).1 = spawnList (launch inpC7).1 :=
  ⟨((C7_fetch_failures_skipped fetchFailB task3 "fs" uriB inpC7 fetchFailB
      (by decide)).1 (by decide) (by decide)).1,
   ((C7_fetch_failures_skipped fetchFailB task3 "fs" uriA inpC7 fetchFailB
      (by decide)).2.1 (by decide) (by decide)).1,
   ((C7_fetch_failures_skipped fetchFailB task3 "fs" uriC inpC7 fetchFailB
      (by decide)).2.1 (by decide) (by decide)).2 (by decide),
   (C7_fetch_failures_skipped fetchFailB task3 "fs" uriB inpC7 fetchFailB
      (by decide)).2.2.2⟩

/-! ### Claim C8 — destroy: stop then rm, tolerant of failure -/

/-- C8: `destroy` issues a stop command followed by a remove command;
a non-zero exit from either step becomes the command's returned result
(not a raised fault) and suppresses the acknowledgement; only when
both steps succeed is the acknowledgement emitted and zero returned.
In particular a second destroy of an already-removed container simply
returns the runtime's own non-zero "not found" exit code. -/
theorem C8_destroy_tolerant (execExit : List String → Int) (container_id : String) :
    (execExit (in_sh (docker_stop (container_id_as_docker_name container_id))) ≠ 0 →
      (destroy execExit container_id).2 =
        execExit (in_sh (docker_stop (container_id_as_docker_name container_id))) ∧
      Effect.protoOut "PluggableStatus" "destroy/docker: ok" ∉
        (destroy execExit container_id).1) ∧
    (execExit (in_sh (docker_stop (container_id_as_docker_name container_id))) = 0 →
     execExit (in_sh (docker_rm (container_id_as_docker_name container_id))) ≠ 0 →
      (destroy execExit container_id).2 =
        execExit (in_sh (docker_rm (container_id_as_docker_name container_id))) ∧
      Effect.protoOut "PluggableStatus" "destroy/docker: ok" ∉
        (destroy execExit container_id).1) ∧
    (execExit (in_sh (docker_stop (container_id_as_docker_name container_id))) = 0 →
     execExit (in_sh (docker_rm (container_id_as_docker_name container_id))) = 0 →
      (destroy execExit container_id).2 = 0 ∧
      Effect.protoOut "PluggableStatus" "destroy/docker: ok" ∈
        (destroy execExit container_id).1) := by
  refine ⟨fun h1 => ?_, fun h1 h2 => ?_, fun h1 h2 => ?_⟩
  · simp [destroy, h1]
  · simp [destroy, h1, h2]
  · simp [destroy, h1, h2]

/-- C8, witness: destroying the identity `"gone"` against a runtime
where the container no longer exists (its stop command exits 1)
returns that "not found" code and emits no acknowledgement. -/
theorem C8_destroy_tolerant_witness :
    (destroy execNotFound "gone").2 =
      execNotFound (in_sh (docker_stop (container_id_as_docker_name "gone"))) ∧
    Effect.protoOut "PluggableStatus" "destroy/docker: ok" ∉
      (destroy execNotFound "gone").1 :=
  (C8_destroy_tolerant execNotFound "gone").1 (by decide)

/-! ### Claim C9 — usage with a missing accounting group -/

/-- C9: for every container identity whose accounting group is missing
or incomplete (the reader yields nothing), `usage` returns the
non-zero status 1, logs a warning, and emits no statistics message —
it does not fail with an unhandled fault. -/
theorem C9_usage_missing_cgroup (readAcct : String → Option CGroupStats)
    (container_id : String)
    (h : readAcct (container_id_as_docker_name container_id) = none) :
    (usage readAcct container_id).2 = 1 ∧
    Effect.logWarn "Missing CGroup!" ∈ (usage readAcct container_id).1 ∧
    Effect.protoOut "ResourceStatistics" "" ∉ (usage readAcct container_id).1 := by
  simp [usage, h]

/-- C9, witness: the theorem applied to a reader with no accounting
group for any container. -/
theorem C9_usage_missing_cgroup_witness :
    (usage readNone "c9").2 = 1 ∧
    Effect.logWarn "Missing CGroup!" ∈ (usage readNone "c9").1 ∧
    Effect.protoOut "ResourceStatistics" "" ∉ (usage readNone "c9").1 :=
  C9_usage_missing_cgroup readNone "c9" rfl

/-! ### Claim C10 — argv derivation from the governing command -/

/-- C10: the container argv is derived from the governing command (the
executor's command when an explicit executor is declared, otherwise
the task's own command): a present, non-empty value field yields
`["sh", "-c", value]`, and an absent or empty value field yields the
empty argv — an empty-string command line behaves exactly like an
unset one. -/
theorem C10_argv_governing (task : TaskInfo) :
    (∀ e, task.executor = some e → fetch_command task = e.command) ∧
    (task.executor = none → fetch_command task = task.command) ∧
    (∀ v, (fetch_command task).value = some v → v ≠ "" →
      argv task = ["sh", "-c", v]) ∧
    ((fetch_command task).value = none ∨ (fetch_command task).value = some "" →
      argv task = []) := by
  refine ⟨fun e he => ?_, fun he => ?_, fun v hv hne => ?_, fun hv => ?_⟩
  · simp [fetch_command, he]
  · simp [fetch_command, he]
  · simp [argv, hv, hne]
  · rcases hv with hv | hv <;> simp [argv, hv]

/-- C10, witness: the argv theorem applied to `taskNoExec`, whose
command value is the non-empty string `"echo hi"`. -/
theorem C10_argv_governing_witness :
    argv taskNoExec = ["sh", "-c", "echo hi"] :=
  (C10_argv_governing taskNoExec).2.2.1 "echo hi" rfl (by decide)

end Medea
